import Mathlib

/-!
# cmemstat: launcher, child-runner and sampler

A shallow embedding of `main.go`.  The program has three pieces of logic:

* `init`  (lines 26-61): the child-runner role, selected by a sentinel first argument;
* `main`  (lines 63-231): the launcher (parent role): spawn, wait for the stop, enrol the
  child in the cgroup, resume it, arbitrate between child death and operator shutdown;
* the two sampler goroutines (lines 176-206) that print one table row per successful poll.

Calls into the operating system and into libcontainer are inputs of the model: their results
are fields of an environment record, and the calls the program makes are recorded, in program
order, in a trace of events.
-/

namespace Cmemstat

/-! ## Constants (lines 21-24) -/

/-- Sentinel first argument that selects the child-runner role. -/
def magicCmd : String := "__init"

/-- Name of the cgroup the launcher creates. -/
def cgroupName : String := "cmemstat"

/-- Go `strings.HasPrefix s p`: `p` is an initial segment of `s`. -/
def HasPrefix (s p : String) : Bool := p.data.isPrefixOf s.data

/-- Go `strings.HasSuffix s p`: `p` is a final segment of `s`. -/
def HasSuffix (s p : String) : Bool := p.data.isSuffixOf s.data

/-! ## The child-runner role: `init` (lines 26-61) -/

/-- What `syscall.Kill(os.Getpid(), SIGSTOP)` does to the calling process. -/
inductive StopResult
  /-- the call returned an error -/
  | failed
  /-- the process was stopped, later received SIGCONT, and the call returned nil -/
  | resumed
  /-- the process was stopped and no SIGCONT ever arrived: the call never returns -/
  | neverResumed
  deriving DecidableEq, Repr

/-- What `system.Exec(path, argv, env)` does to the calling process. -/
inductive ExecResult
  /-- the process image was replaced; the call does not return -/
  | replaced
  /-- the call returned an error -/
  | failed
  /-- the call returned nil (the code handles this with `os.Exit(0)`) -/
  | returnedNil
  deriving DecidableEq, Repr

/-- Results of the system calls made by `init`. -/
structure ChildEnv where
  /-- `exec.LookPath`: the resolved path, or `none` for an error -/
  LookPath : String → Option String
  /-- result of sending SIGSTOP to itself -/
  stop : StopResult
  /-- result of `system.Exec` -/
  exec : ExecResult
  /-- `os.Environ()` -/
  Environ : List String

/-- How the process that runs `init` goes on. -/
inductive InitOutcome
  /-- `init` returned: the Go runtime goes on to `main` -/
  | fallThrough
  /-- `os.Args[1:]` on an empty `os.Args`: slice bounds out of range -/
  | panicked
  /-- `os.Exit(code)` -/
  | exit (code : Nat)
  /-- the process image was replaced by `path`, run with `argv` and `env` -/
  | execed (path : String) (argv : List String) (env : List String)
  /-- the process stays stopped for ever -/
  | suspended
  deriving DecidableEq, Repr

/-- Result of `init`: whether `slog.SetLogLoggerLevel(slog.LevelDebug)` was called, and how the
process goes on. -/
structure InitResult where
  debugLogging : Bool
  outcome : InitOutcome
  deriving DecidableEq, Repr

/-- The branch condition of line 30: `len(args) >= 2 && strings.HasPrefix(args[0], magicCmd)`. -/
def isChildRunner (args : List String) : Bool :=
  decide (args.length ≥ 2) && HasPrefix (args.headD "") magicCmd

/-- Body of the child-runner branch (lines 31-59), for `args = a0 :: a1 :: rest`. -/
def childRunner (env : ChildEnv) (a0 a1 : String) (rest : List String) : InitResult :=
  let debugLogging := HasSuffix a0 "d"
  match env.LookPath a1 with
  | none => ⟨debugLogging, .exit 1⟩
  | some path =>
    match env.stop with
    | .failed => ⟨debugLogging, .exit 2⟩
    | .neverResumed => ⟨debugLogging, .suspended⟩
    | .resumed =>
      match env.exec with
      | .failed => ⟨debugLogging, .exit 3⟩
      | .replaced => ⟨debugLogging, .execed path (a1 :: rest) env.Environ⟩
      | .returnedNil => ⟨debugLogging, .exit 0⟩

/-- The function `init` (lines 26-61), run on `os.Args`. -/
def init (env : ChildEnv) (osArgs : List String) : InitResult :=
  match osArgs with
  | [] => ⟨false, .panicked⟩
  | _ :: args =>
    if isChildRunner args then
      match args with
      | a0 :: a1 :: rest => childRunner env a0 a1 rest
      | _ => ⟨false, .panicked⟩
    else ⟨false, .fallThrough⟩

/-! ## The launcher: `main` (lines 63-231) -/

/-- The argument list of the re-exec (lines 84-91): `magicCmd`, with the suffix `d` when
`debug` is set, in front of the positional arguments. -/
def magicCmdWithOptions (debug : Bool) : String :=
  if debug then magicCmd ++ "d" else magicCmd

/-- Line 91: `append([]string{magicCmdWithOptions}, args...)`. -/
def childArgs (debug : Bool) (args : List String) : List String :=
  magicCmdWithOptions debug :: args

/-- The two methods of `syscall.WaitStatus` that `main` calls, and the exit status it logs. -/
structure WaitStatus where
  Exited : Bool
  Stopped : Bool
  ExitStatus : Int
  deriving DecidableEq, Repr

/-- Signals the launcher sends to the child. -/
inductive Signal
  | SIGCONT
  | SIGINT
  deriving DecidableEq, Repr

/-- Which case of the `select` of line 216 fires. -/
inductive SelectCase
  /-- `<-deadChild`: the reaper goroutine closed the channel -/
  | deadChild
  /-- `<-shutdown`: SIGINT or SIGTERM was delivered to the launcher -/
  | shutdown
  /-- neither channel ever becomes ready -/
  | never
  deriving DecidableEq, Repr

/-- Inputs of one run of `main`: the parsed command line and the result of every call whose
result the code inspects. -/
structure Env where
  /-- flag `-debug` -/
  debug : Bool
  /-- flag `-systemd-cgroup` -/
  systemdCgroup : Bool
  /-- flag `-cmdout` -/
  cmdOut : String
  /-- flag `-cmderr` -/
  cmdErr : String
  /-- `flag.CommandLine.Args()` -/
  args : List String
  /-- `os.OpenFile(cmdOut, ...)` returned no error -/
  openOutOk : Bool
  /-- `os.OpenFile(cmdErr, ...)` returned no error -/
  openErrOk : Bool
  /-- `cmd.Start()` returned no error -/
  startOk : Bool
  /-- `cmd.Process.Pid` -/
  childPid : Nat
  /-- `syscall.Wait4` returned no error -/
  waitOk : Bool
  /-- process id returned by `syscall.Wait4` -/
  waitPid : Nat
  /-- status stored by `syscall.Wait4` -/
  ws : WaitStatus
  /-- `manager.New` returned no error -/
  newManagerOk : Bool
  /-- `cm.Exists()` -/
  cgroupExists : Bool
  /-- `cm.Destroy()` of line 146 returned no error -/
  destroyOk : Bool
  /-- `cm.Apply(pid)` returned no error -/
  applyOk : Bool
  /-- `cgroups.IsCgroup2UnifiedMode()` -/
  unified : Bool
  /-- `cmd.Process.Signal(SIGCONT)` returned no error -/
  contOk : Bool
  /-- which case of the `select` fires -/
  first : SelectCase
  /-- `syscall.Kill(pid, SIGINT)` returned no error -/
  killOk : Bool
  /-- after the interrupt, `deadChild` is eventually closed -/
  childDies : Bool

/-- Calls made by `main`, in program order.  Debug log lines are left out. -/
inductive Event
  /-- `parentLogger.Error(msg, ...)` -/
  | logError (msg : String)
  /-- `flag.Usage()` -/
  | usage
  /-- `os.OpenFile(name, ...)` -/
  | openFile (name : String) (ok : Bool)
  /-- `cmd.Start()` for `exec.Command("/proc/self/exe", argv...)` -/
  | start (argv : List String) (ok : Bool)
  /-- `syscall.Wait4(pid, &ws, WUNTRACED, nil)` and what it reported -/
  | wait4 (pid : Nat) (ok : Bool) (gotPid : Nat) (ws : WaitStatus)
  /-- `manager.New(&configs.Cgroup{Name, Systemd, Rootless})` -/
  | newManager (name : String) (systemd rootless : Bool) (ok : Bool)
  /-- `cm.Exists()` -/
  | cgroupExists (res : Bool)
  /-- `cm.Destroy()` -/
  | destroy
  /-- `cm.Apply(pid)` -/
  | apply (pid : Nat) (ok : Bool)
  /-- `signal.Notify(shutdown, os.Interrupt, syscall.SIGTERM)` -/
  | notify
  /-- `go func() { cmd.Wait(); close(deadChild) }()` -/
  | goReaper
  /-- `go func() { ... }()` of the sampler, unified or legacy variant -/
  | goSampler (unified : Bool)
  /-- a signal sent to process `pid` -/
  | signal (pid : Nat) (sig : Signal) (ok : Bool)
  /-- a receive from `deadChild` completed -/
  | recvDeadChild
  /-- a receive from `shutdown` completed -/
  | recvShutdown
  deriving DecidableEq, Repr

/-- How the launcher process ends. -/
inductive Outcome
  /-- `os.Exit(code)` -/
  | exit (code : Nat)
  /-- `panic(...)` -/
  | panicked
  /-- `main` returned: the process exits with status 0 -/
  | returned
  /-- blocked for ever on a channel receive -/
  | blocked
  deriving DecidableEq, Repr

/-- One run of `main`: the calls it made and how it ended. -/
structure Run where
  trace : List Event
  outcome : Outcome
  deriving DecidableEq, Repr

/-- `os.Exit(code)`: the process ends at once; deferred calls are not run. -/
def osExit (code : Nat) (trace : List Event) (_deferred : List Event) : Run :=
  ⟨trace, .exit code⟩

/-- `return` from `main`: the deferred calls run, then the process exits with status 0. -/
def ret (trace : List Event) (deferred : List Event) : Run :=
  ⟨trace ++ deferred, .returned⟩

/-- Exit status of the process, when it ends (2 is the status of a Go panic). -/
def Outcome.status : Outcome → Option Nat
  | .exit code => some code
  | .panicked => some 2
  | .returned => some 0
  | .blocked => none

/-- The function `main` (lines 63-231).  `t` is the trace so far.  Every `os.Exit` and
`return` of the source is an `osExit` or `ret` here, given the calls deferred so far: none
before line 158, `cm.Destroy()` after it.  The nested test of lines 144-151 (`cm.Exists()`,
then `cm.Destroy()`, then its error) is written as one test for the fatal case followed by
the trace of the other two. -/
def main (e : Env) : Run :=
  -- lines 77-82
  if e.args.length < 1 then
    osExit 1 [.logError "not enough args, please provide a command to execute", .usage] []
  else
  -- lines 84-92
  let argv := childArgs e.debug e.args
  -- lines 94-106
  let t := [Event.openFile e.cmdOut e.openOutOk]
  if ¬ e.openOutOk then osExit 1 (t ++ [.logError "failed to open out file"]) [] else
  let t := t ++ [.openFile e.cmdErr e.openErrOk]
  if ¬ e.openErrOk then osExit 1 (t ++ [.logError "failed to open err file"]) [] else
  -- lines 108-112
  let t := t ++ [.start argv e.startOk]
  if ¬ e.startOk then osExit 1 (t ++ [.logError "failed to start the cmd"]) [] else
  -- lines 116-132
  let t := t ++ [.wait4 e.childPid e.waitOk e.waitPid e.ws]
  if ¬ e.waitOk then osExit 1 (t ++ [.logError "failed to wait4"]) [] else
  if e.waitPid ≠ e.childPid then ⟨t, .panicked⟩ else
  if e.ws.Exited then osExit 1 (t ++ [.logError "child exited early"]) [] else
  if ¬ e.ws.Stopped then osExit 1 (t ++ [.logError "child didn't stopped itself"]) [] else
  -- lines 135-143
  let t := t ++ [.newManager cgroupName e.systemdCgroup e.systemdCgroup e.newManagerOk]
  if ¬ e.newManagerOk then
    osExit 1 (t ++ [.logError "failed to create the cgroup manager"]) []
  else
  -- lines 144-151
  let t := t ++ [.cgroupExists e.cgroupExists]
  if e.cgroupExists ∧ ¬ e.destroyOk then
    osExit 1 (t ++ [.destroy, .logError "failed to destroy cgroup"]) []
  else
  let t := if e.cgroupExists then t ++ [.destroy] else t
  -- lines 152-157
  let t := t ++ [.apply e.childPid e.applyOk]
  if ¬ e.applyOk then osExit 1 (t ++ [.logError "failed to apply cgroup"]) [] else
  -- line 158
  let deferred := [Event.destroy]
  -- lines 160-214
  let t := t ++ [.notify, .goReaper, .goSampler e.unified,
    .signal e.childPid .SIGCONT e.contOk]
  if ¬ e.contOk then osExit 1 (t ++ [.logError "failed to resume the child"]) deferred else
  -- lines 216-230
  match e.first with
  | .deadChild => ret (t ++ [.recvDeadChild]) deferred
  | .shutdown =>
    let t := t ++ [.recvShutdown, .signal e.childPid .SIGINT e.killOk]
    if ¬ e.killOk then osExit 1 (t ++ [.logError "failed to kill the child"]) deferred else
    if e.childDies then ret (t ++ [.recvDeadChild]) deferred
    else ⟨t, .blocked⟩
  | .never => ⟨t, .blocked⟩

/-! ## The sampler goroutines (lines 174-206) -/

/-- Number of values of a Go `uint64`. -/
def uint64Size : Nat := 2 ^ 64

/-- Go subtraction `a - b` of two `uint64` values: the difference modulo `2 ^ 64`. -/
def sub64 (a b : Nat) : Nat := (((a : Int) - (b : Int)) % (2 ^ 64 : Int)).toNat

/-- The libcontainer type `cgroups.MemoryData`; only the field `Usage` (a `uint64`) is read. -/
structure MemoryData where
  Usage : Nat
  deriving Repr

/-- The libcontainer type `cgroups.MemoryStats`, restricted to the fields the sampler reads.
`Stats` is a Go `map[string]uint64`: a key that is absent reads as 0. -/
structure MemoryStats where
  Usage : MemoryData
  KernelUsage : MemoryData
  Stats : String → Nat

/-- The libcontainer type `cgroups.Stats`. -/
structure Stats where
  MemoryStats : MemoryStats

/-- Every counter of the sample is a `uint64`. -/
def Stats.WellFormed (stats : Stats) : Prop :=
  stats.MemoryStats.Usage.Usage < uint64Size ∧
  stats.MemoryStats.KernelUsage.Usage < uint64Size ∧
  ∀ k, stats.MemoryStats.Stats k < uint64Size

/-! A Go `time.Duration` is a number of nanoseconds held in an `int64`; it is modelled as an
`Int` together with the range predicate `InRange`. -/

/-- Smallest `time.Duration`. -/
def minDuration : Int := -(2 ^ 63)

/-- Largest `time.Duration`. -/
def maxDuration : Int := 2 ^ 63 - 1

/-- The constant `time.Millisecond`, in nanoseconds. -/
def Millisecond : Int := 1000000

/-- The value is one an `int64` (a `time.Duration`) can hold. -/
def InRange (d : Int) : Prop := minDuration ≤ d ∧ d ≤ maxDuration

/-- Two's-complement wraparound of an `int64` result. -/
def wrapInt64 (x : Int) : Int := (x + 2 ^ 63) % 2 ^ 64 - 2 ^ 63

/-- Conversion `uint64(x)` of an `int64`. -/
def toUint64 (x : Int) : Int := x % 2 ^ 64

/-- Go `time.lessThanHalf(x, y)`: `uint64(x)+uint64(x) < uint64(y)`. -/
def lessThanHalf (x y : Int) : Bool :=
  decide ((toUint64 x + toUint64 x) % 2 ^ 64 < toUint64 y)

/-- Go `(d Duration).Round(m)` of the standard library `time`: `d` rounded to the nearest
multiple of `m`, halfway values away from zero, saturating at the ends of the range.
`Int.tmod` is Go's `%` (the remainder has the sign of `d`). -/
def Round (d m : Int) : Int :=
  if m ≤ 0 then d
  else
    let r := Int.tmod d m
    if d < 0 then
      let r := wrapInt64 (-r)
      if lessThanHalf r m then wrapInt64 (d + r)
      else
        let d1 := wrapInt64 (d - m + r)
        if d1 < d then d1 else minDuration
    else
      if lessThanHalf r m then wrapInt64 (d - r)
      else
        let d1 := wrapInt64 (d + m - r)
        if d1 > d then d1 else maxDuration

/-- What one `Fprintln` or `Fprintf` call of the sampler writes to the tabwriter. -/
inductive Line
  /-- `fmt.Fprintln(w, s)` -/
  | text (s : String)
  /-- `fmt.Fprintf(w, "%10s\t%12d\t%12d\t%12d\t%12d\t%12d\t\n", uptime, c1, c2, c3, usage, ws)` -/
  | row (uptime : Int) (c1 c2 c3 usage workingset : Nat)
  deriving DecidableEq, Repr

/-- The `tabwriter.Writer` over `os.Stdout`: text written to it is held back (`buf`) until
`Flush`, which passes it on to `os.Stdout` (`out`).  Column alignment is not modelled. -/
structure Writer where
  buf : List Line
  out : List Line
  deriving DecidableEq, Repr

/-- `tabwriter.NewWriter(os.Stdout, ...)` (line 175). -/
def Writer.new : Writer := ⟨[], []⟩

/-- One `fmt.Fprintln(w, ...)` or `fmt.Fprintf(w, ...)` producing the line `l`. -/
def Writer.Fprint (w : Writer) (l : Line) : Writer := { w with buf := w.buf ++ [l] }

/-- The call `w.Flush()`. -/
def Writer.Flush (w : Writer) : Writer := { buf := [], out := w.out ++ w.buf }

/-- Everything written to the writer so far, flushed or not. -/
def Writer.written (w : Writer) : List Line := w.out ++ w.buf

/-- One iteration of a sampler loop: the result of `cm.GetStats()` and, for a successful
poll, the value of `time.Since(start)` read while the row is formatted. -/
inductive Poll
  /-- `cm.GetStats()` returned an error -/
  | failed
  /-- `cm.GetStats()` returned `stats`; `time.Since(start)` is `since` -/
  | ok (stats : Stats) (since : Int)

/-- State of a sampler goroutine: its writer and the number of
`"failed to get stats"` error lines it has logged. -/
structure Sampler where
  w : Writer
  errors : Nat

/-- Header written by the unified (cgroup v2) variant, line 178. -/
def headerUnified : String := "uptime\tanon\tfile\tkernel\tusage\tworkingset\t"

/-- Header written by the legacy (cgroup v1) variant, line 193. -/
def headerLegacy : String := "uptime\trss\tcache\tkernel\tusage\tworkingset\t"

/-- The row of line 185 (unified variant). -/
def rowUnified (stats : Stats) (since : Int) : Line :=
  let s := stats.MemoryStats.Stats
  .row (Round since Millisecond) (s "anon") (s "file") (s "kernel")
    stats.MemoryStats.Usage.Usage (sub64 stats.MemoryStats.Usage.Usage (s "inactive_file"))

/-- The row of line 200 (legacy variant). -/
def rowLegacy (stats : Stats) (since : Int) : Line :=
  let s := stats.MemoryStats.Stats
  .row (Round since Millisecond) (s "rss") (s "cache") stats.MemoryStats.KernelUsage.Usage
    stats.MemoryStats.Usage.Usage
    (sub64 stats.MemoryStats.Usage.Usage (s "total_inactive_file"))

/-- The `for` loop of lines 179-189, run for the given poll results. -/
def loopUnified : List Poll → Sampler → Sampler
  | [], st => st
  | .failed :: polls, st => loopUnified polls { st with errors := st.errors + 1 }
  | .ok stats since :: polls, st =>
    loopUnified polls { st with w := (st.w.Fprint (rowUnified stats since)).Flush }

/-- The `for` loop of lines 194-204, run for the given poll results. -/
def loopLegacy : List Poll → Sampler → Sampler
  | [], st => st
  | .failed :: polls, st => loopLegacy polls { st with errors := st.errors + 1 }
  | .ok stats since :: polls, st =>
    loopLegacy polls { st with w := (st.w.Fprint (rowLegacy stats since)).Flush }

/-- The sampler goroutine selected at line 176, run for the given poll results on a fresh
writer: the header is written first, then the loop runs. -/
def sampler (unified : Bool) (polls : List Poll) : Sampler :=
  if unified then loopUnified polls ⟨Writer.new.Fprint (.text headerUnified), 0⟩
  else loopLegacy polls ⟨Writer.new.Fprint (.text headerLegacy), 0⟩

/-- Value of the workingset column of a line (none for the header). -/
def Line.workingset? : Line → Option Nat
  | .text _ => none
  | .row _ _ _ _ _ ws => some ws

/-- Value of the uptime column of a line (none for the header). -/
def Line.uptime? : Line → Option Int
  | .text _ => none
  | .row up _ _ _ _ _ => some up


/-! ## The straight-line prefixes of `main` -/

/-- Events of `main` up to `cmd.Start()` (lines 94-108). -/
def spawnTrace (e : Env) : List Event :=
  [.openFile e.cmdOut e.openOutOk, .openFile e.cmdErr e.openErrOk,
   .start (childArgs e.debug e.args) e.startOk]

/-- Events of `main` up to `syscall.Wait4` (line 117). -/
def waitTrace (e : Env) : List Event :=
  spawnTrace e ++ [.wait4 e.childPid e.waitOk e.waitPid e.ws]

/-- Events of `main` up to `cm.Exists()` (line 144). -/
def managerTrace (e : Env) : List Event :=
  waitTrace e ++ [.newManager cgroupName e.systemdCgroup e.systemdCgroup e.newManagerOk,
    .cgroupExists e.cgroupExists]

/-- Events of `main` up to `cm.Apply` (line 152); a cgroup that already exists is destroyed
first. -/
def applyTrace (e : Env) : List Event :=
  managerTrace e ++ (if e.cgroupExists then [Event.destroy] else []) ++
    [.apply e.childPid e.applyOk]

/-- Events of `main` up to the continue signal (line 210). -/
def resumeTrace (e : Env) : List Event :=
  applyTrace e ++ [.notify, .goReaper, .goSampler e.unified,
    .signal e.childPid .SIGCONT e.contOk]

/-- The child was spawned: a target was given, both sinks opened, `cmd.Start()` succeeded. -/
def Spawned (e : Env) : Prop :=
  1 ≤ e.args.length ∧ e.openOutOk = true ∧ e.openErrOk = true ∧ e.startOk = true

/-- The parent saw its child stopped: `Wait4` succeeded for the child with a status that is
not exited and is stopped. -/
def Paused (e : Env) : Prop :=
  Spawned e ∧ e.waitOk = true ∧ e.waitPid = e.childPid ∧ e.ws.Exited = false ∧
    e.ws.Stopped = true

/-- The child was placed in the cgroup: manager created, a stale cgroup (if any) destroyed,
`cm.Apply` succeeded. -/
def Enrolled (e : Env) : Prop :=
  Paused e ∧ e.newManagerOk = true ∧ (e.cgroupExists = true → e.destroyOk = true) ∧
    e.applyOk = true

/-- The continue signal was sent without error. -/
def Resumed (e : Env) : Prop := Enrolled e ∧ e.contOk = true

/-! ## Reading a run of the launcher -/

/-- The calls that touch the accounting group. -/
def Event.isCgroup : Event → Bool
  | .newManager _ _ _ _ => true
  | .cgroupExists _ => true
  | .destroy => true
  | .apply _ _ => true
  | _ => false

/-- The nine failure kinds of the launcher named by the specification's exit-code list,
(a) to (i). -/
inductive FailureKind
  | missingTarget
  | sinkOpen
  | spawn
  | wait
  | exitedEarly
  | notStopped
  | accounting
  | resume
  | interrupt
  deriving DecidableEq, Repr

/-- The failure kind reported by an error line of `main`. -/
def failureKind? (msg : String) : Option FailureKind :=
  if msg = "not enough args, please provide a command to execute" then some .missingTarget
  else if msg = "failed to open out file" then some .sinkOpen
  else if msg = "failed to open err file" then some .sinkOpen
  else if msg = "failed to start the cmd" then some .spawn
  else if msg = "failed to wait4" then some .wait
  else if msg = "child exited early" then some .exitedEarly
  else if msg = "child didn't stopped itself" then some .notStopped
  else if msg = "failed to create the cgroup manager" then some .accounting
  else if msg = "failed to destroy cgroup" then some .accounting
  else if msg = "failed to apply cgroup" then some .accounting
  else if msg = "failed to resume the child" then some .resume
  else if msg = "failed to kill the child" then some .interrupt
  else none

/-- The failure kind reported by an event: none unless it is an error line. -/
def Event.failure? : Event → Option FailureKind
  | .logError msg => failureKind? msg
  | _ => none

/-- The failure kind a run reports: that of its first error line. -/
def Run.failure? (r : Run) : Option FailureKind :=
  r.trace.findSome? Event.failure?

/-! ## Concrete runs -/

/-- A run in which every call succeeds and the child dies on its own: `cmemstat sleep 10`. -/
def okEnv : Env where
  debug := false
  systemdCgroup := true
  cmdOut := "/dev/stderr"
  cmdErr := "/dev/stderr"
  args := ["sleep", "10"]
  openOutOk := true
  openErrOk := true
  startOk := true
  childPid := 4242
  waitOk := true
  waitPid := 4242
  ws := ⟨false, true, -1⟩
  newManagerOk := true
  cgroupExists := false
  destroyOk := true
  applyOk := true
  unified := true
  contOk := true
  first := .deadChild
  killOk := true
  childDies := true

/-- As `okEnv`, but sending SIGCONT to the child fails. -/
def contFailEnv : Env := { okEnv with contOk := false }

/-- As `okEnv`, but the operator interrupts the launcher and sending SIGINT to the child
fails. -/
def killFailEnv : Env := { okEnv with first := .shutdown, killOk := false }

/-- As `okEnv`, but `cm.Apply` fails. -/
def applyFailEnv : Env := { okEnv with applyOk := false }

/-- A run without a target command. -/
def noTargetEnv : Env := { okEnv with args := [] }

/-- A run in which the file for the child's standard output cannot be opened. -/
def sinkFailEnv : Env := { okEnv with openOutOk := false }

/-- As `okEnv`, but the operator interrupts the launcher and the child dies of the SIGINT. -/
def shutdownEnv : Env := { okEnv with first := .shutdown }

/-- As `okEnv`, but the child-runner exited (status 1) before stopping. -/
def exitedEarlyEnv : Env := { okEnv with ws := ⟨true, false, 1⟩ }

/-- A run that fails in the way `k` names. -/
def failingEnv : FailureKind → Env
  | .missingTarget => noTargetEnv
  | .sinkOpen => sinkFailEnv
  | .spawn => { okEnv with startOk := false }
  | .wait => { okEnv with waitOk := false }
  | .exitedEarly => exitedEarlyEnv
  | .notStopped => { okEnv with ws := ⟨false, false, -1⟩ }
  | .accounting => applyFailEnv
  | .resume => contFailEnv
  | .interrupt => killFailEnv

/-- A sample whose inactive-file counter is larger than its usage. -/
def underflowStats : Stats :=
  ⟨⟨⟨4096⟩, ⟨0⟩, fun k => if k = "inactive_file" then 8192 else 0⟩⟩

/-- The sample of the specification's example: usage 1000, inactive file 200. -/
def exampleStats : Stats :=
  ⟨⟨⟨1000⟩, ⟨64⟩, fun k =>
    if k = "inactive_file" ∨ k = "total_inactive_file" then 200 else 0⟩⟩

/-- A child-runner environment in which every call succeeds. -/
def okChildEnv : ChildEnv where
  LookPath := fun name => some ("/usr/bin/" ++ name)
  stop := .resumed
  exec := .replaced
  Environ := ["PATH=/usr/bin"]

/-! ## Reading the sampler's output -/

/-- The row a poll contributes to the table: none for a failed poll. -/
def rowOf (unified : Bool) : Poll → Option Line
  | .failed => none
  | .ok stats since => some (if unified then rowUnified stats since else rowLegacy stats since)

/-- The rows of the successful polls, in poll order. -/
def rowsOf (unified : Bool) (polls : List Poll) : List Line :=
  polls.filterMap (rowOf unified)

/-- The header line of the active variant. -/
def headerLine (unified : Bool) : Line :=
  .text (if unified then headerUnified else headerLegacy)

/-- Number of failed polls. -/
def failures : List Poll → Nat
  | [] => 0
  | .failed :: polls => failures polls + 1
  | .ok _ _ :: polls => failures polls

/-- The values of `time.Since(start)` read by the successful polls, in poll order. -/
def sinces : List Poll → List Int
  | [] => []
  | .failed :: polls => sinces polls
  | .ok _ since :: polls => since :: sinces polls

/-! ## The launcher, branch by branch -/

theorem main_noArgs (e : Env) (h1 : e.args.length < 1) :
    main e = ⟨[.logError "not enough args, please provide a command to execute", .usage],
      .exit 1⟩ := by
  unfold main
  simp only [h1, if_true, osExit]

theorem main_openOutFailed (e : Env) (h1 : 1 ≤ e.args.length) (h2 : e.openOutOk = false) :
    main e = ⟨[.openFile e.cmdOut e.openOutOk, .logError "failed to open out file"],
      .exit 1⟩ := by
  have h1' : ¬ e.args.length < 1 := by omega
  unfold main
  simp [h1', h2, osExit]

theorem main_openErrFailed (e : Env) (h1 : 1 ≤ e.args.length) (h2 : e.openOutOk = true)
    (h3 : e.openErrOk = false) :
    main e = ⟨[.openFile e.cmdOut e.openOutOk, .openFile e.cmdErr e.openErrOk,
      .logError "failed to open err file"], .exit 1⟩ := by
  have h1' : ¬ e.args.length < 1 := by omega
  unfold main
  simp [h1', h2, h3, osExit]

theorem main_startFailed (e : Env) (h1 : 1 ≤ e.args.length) (h2 : e.openOutOk = true)
    (h3 : e.openErrOk = true) (h4 : e.startOk = false) :
    main e = ⟨spawnTrace e ++ [.logError "failed to start the cmd"], .exit 1⟩ := by
  have h1' : ¬ e.args.length < 1 := by omega
  unfold main
  simp [h1', h2, h3, h4, osExit, spawnTrace]

theorem main_waitFailed (e : Env) (h : Spawned e) (h5 : e.waitOk = false) :
    main e = ⟨waitTrace e ++ [.logError "failed to wait4"], .exit 1⟩ := by
  obtain ⟨h1, h2, h3, h4⟩ := h
  have h1' : ¬ e.args.length < 1 := by omega
  unfold main
  simp [h1', h2, h3, h4, h5, osExit, spawnTrace, waitTrace]

theorem main_wrongPid (e : Env) (h : Spawned e) (h5 : e.waitOk = true)
    (h6 : e.waitPid ≠ e.childPid) :
    main e = ⟨waitTrace e, .panicked⟩ := by
  obtain ⟨h1, h2, h3, h4⟩ := h
  have h1' : ¬ e.args.length < 1 := by omega
  unfold main
  simp [h1', h2, h3, h4, h5, h6, osExit, spawnTrace, waitTrace]

theorem main_exitedEarly (e : Env) (h : Spawned e) (h5 : e.waitOk = true)
    (h6 : e.waitPid = e.childPid) (h7 : e.ws.Exited = true) :
    main e = ⟨waitTrace e ++ [.logError "child exited early"], .exit 1⟩ := by
  obtain ⟨h1, h2, h3, h4⟩ := h
  have h1' : ¬ e.args.length < 1 := by omega
  unfold main
  simp [h1', h2, h3, h4, h5, h6, h7, osExit, spawnTrace, waitTrace]

theorem main_notStopped (e : Env) (h : Spawned e) (h5 : e.waitOk = true)
    (h6 : e.waitPid = e.childPid) (h7 : e.ws.Exited = false) (h8 : e.ws.Stopped = false) :
    main e = ⟨waitTrace e ++ [.logError "child didn't stopped itself"], .exit 1⟩ := by
  obtain ⟨h1, h2, h3, h4⟩ := h
  have h1' : ¬ e.args.length < 1 := by omega
  unfold main
  simp [h1', h2, h3, h4, h5, h6, h7, h8, osExit, spawnTrace, waitTrace]

theorem main_newManagerFailed (e : Env) (h : Paused e) (h9 : e.newManagerOk = false) :
    main e = ⟨waitTrace e ++
      [.newManager cgroupName e.systemdCgroup e.systemdCgroup e.newManagerOk,
        .logError "failed to create the cgroup manager"], .exit 1⟩ := by
  obtain ⟨⟨h1, h2, h3, h4⟩, h5, h6, h7, h8⟩ := h
  have h1' : ¬ e.args.length < 1 := by omega
  unfold main
  simp [h1', h2, h3, h4, h5, h6, h7, h8, h9, osExit, spawnTrace, waitTrace]

theorem main_staleDestroyFailed (e : Env) (h : Paused e) (h9 : e.newManagerOk = true)
    (hx : e.cgroupExists = true) (h10 : e.destroyOk = false) :
    main e = ⟨managerTrace e ++ [.destroy, .logError "failed to destroy cgroup"], .exit 1⟩ := by
  obtain ⟨⟨h1, h2, h3, h4⟩, h5, h6, h7, h8⟩ := h
  have h1' : ¬ e.args.length < 1 := by omega
  unfold main
  simp [h1', h2, h3, h4, h5, h6, h7, h8, h9, hx, h10, osExit, spawnTrace, waitTrace,
    managerTrace]

theorem main_applyFailed (e : Env) (h : Paused e) (h9 : e.newManagerOk = true)
    (h10 : e.cgroupExists = true → e.destroyOk = true) (h11 : e.applyOk = false) :
    main e = ⟨applyTrace e ++ [.logError "failed to apply cgroup"], .exit 1⟩ := by
  obtain ⟨⟨h1, h2, h3, h4⟩, h5, h6, h7, h8⟩ := h
  have h1' : ¬ e.args.length < 1 := by omega
  unfold main
  by_cases hx : e.cgroupExists = true
  · simp [h1', h2, h3, h4, h5, h6, h7, h8, h9, hx, h10 hx, h11, osExit, spawnTrace, waitTrace,
      managerTrace, applyTrace]
  · simp [h1', h2, h3, h4, h5, h6, h7, h8, h9, hx, h11, osExit, spawnTrace, waitTrace,
      managerTrace, applyTrace]

theorem main_contFailed (e : Env) (h : Enrolled e) (h12 : e.contOk = false) :
    main e = ⟨resumeTrace e ++ [.logError "failed to resume the child"], .exit 1⟩ := by
  obtain ⟨⟨⟨h1, h2, h3, h4⟩, h5, h6, h7, h8⟩, h9, h10, h11⟩ := h
  have h1' : ¬ e.args.length < 1 := by omega
  unfold main
  by_cases hx : e.cgroupExists = true
  · simp [h1', h2, h3, h4, h5, h6, h7, h8, h9, hx, h10 hx, h11, h12, osExit, spawnTrace,
      waitTrace, managerTrace, applyTrace, resumeTrace]
  · simp [h1', h2, h3, h4, h5, h6, h7, h8, h9, hx, h11, h12, osExit, spawnTrace, waitTrace,
      managerTrace, applyTrace, resumeTrace]

theorem main_resumed (e : Env) (h : Resumed e) :
    main e =
      match e.first with
      | .deadChild => ⟨resumeTrace e ++ [.recvDeadChild, .destroy], .returned⟩
      | .shutdown =>
        if e.killOk = false then
          ⟨resumeTrace e ++ [.recvShutdown, .signal e.childPid .SIGINT e.killOk,
            .logError "failed to kill the child"], .exit 1⟩
        else if e.childDies = true then
          ⟨resumeTrace e ++ [.recvShutdown, .signal e.childPid .SIGINT e.killOk,
            .recvDeadChild, .destroy], .returned⟩
        else ⟨resumeTrace e ++ [.recvShutdown, .signal e.childPid .SIGINT e.killOk], .blocked⟩
      | .never => ⟨resumeTrace e, .blocked⟩ := by
  obtain ⟨⟨⟨⟨h1, h2, h3, h4⟩, h5, h6, h7, h8⟩, h9, h10, h11⟩, h12⟩ := h
  have h1' : ¬ e.args.length < 1 := by omega
  unfold main
  by_cases hx : e.cgroupExists = true
  · cases hf : e.first <;> cases hk : e.killOk <;> cases hd : e.childDies <;>
      simp [h1', h2, h3, h4, h5, h6, h7, h8, h9, hx, h10 hx, h11, h12, hf, hk, hd, osExit, ret,
        spawnTrace, waitTrace, managerTrace, applyTrace, resumeTrace]
  · cases hf : e.first <;> cases hk : e.killOk <;> cases hd : e.childDies <;>
      simp [h1', h2, h3, h4, h5, h6, h7, h8, h9, hx, h11, h12, hf, hk, hd, osExit, ret,
        spawnTrace, waitTrace, managerTrace, applyTrace, resumeTrace]

/-- Every run of `main` takes one of its seventeen ways out. -/
theorem main_cases (e : Env) :
    (e.args.length < 1 ∧ main e =
      ⟨[.logError "not enough args, please provide a command to execute", .usage], .exit 1⟩) ∨
    ((1 ≤ e.args.length ∧ e.openOutOk = false) ∧ main e =
      ⟨[.openFile e.cmdOut e.openOutOk, .logError "failed to open out file"], .exit 1⟩) ∨
    ((1 ≤ e.args.length ∧ e.openOutOk = true ∧ e.openErrOk = false) ∧ main e =
      ⟨[.openFile e.cmdOut e.openOutOk, .openFile e.cmdErr e.openErrOk,
        .logError "failed to open err file"], .exit 1⟩) ∨
    ((1 ≤ e.args.length ∧ e.openOutOk = true ∧ e.openErrOk = true ∧ e.startOk = false) ∧
      main e = ⟨spawnTrace e ++ [.logError "failed to start the cmd"], .exit 1⟩) ∨
    ((Spawned e ∧ e.waitOk = false) ∧ main e =
      ⟨waitTrace e ++ [.logError "failed to wait4"], .exit 1⟩) ∨
    ((Spawned e ∧ e.waitOk = true ∧ e.waitPid ≠ e.childPid) ∧ main e =
      ⟨waitTrace e, .panicked⟩) ∨
    ((Spawned e ∧ e.waitOk = true ∧ e.waitPid = e.childPid ∧ e.ws.Exited = true) ∧ main e =
      ⟨waitTrace e ++ [.logError "child exited early"], .exit 1⟩) ∨
    ((Spawned e ∧ e.waitOk = true ∧ e.waitPid = e.childPid ∧ e.ws.Exited = false ∧
      e.ws.Stopped = false) ∧ main e =
      ⟨waitTrace e ++ [.logError "child didn't stopped itself"], .exit 1⟩) ∨
    ((Paused e ∧ e.newManagerOk = false) ∧ main e =
      ⟨waitTrace e ++ [.newManager cgroupName e.systemdCgroup e.systemdCgroup e.newManagerOk,
        .logError "failed to create the cgroup manager"], .exit 1⟩) ∨
    ((Paused e ∧ e.newManagerOk = true ∧ e.cgroupExists = true ∧ e.destroyOk = false) ∧
      main e = ⟨managerTrace e ++ [.destroy, .logError "failed to destroy cgroup"], .exit 1⟩) ∨
    ((Paused e ∧ e.newManagerOk = true ∧ (e.cgroupExists = true → e.destroyOk = true) ∧
      e.applyOk = false) ∧ main e =
      ⟨applyTrace e ++ [.logError "failed to apply cgroup"], .exit 1⟩) ∨
    ((Enrolled e ∧ e.contOk = false) ∧ main e =
      ⟨resumeTrace e ++ [.logError "failed to resume the child"], .exit 1⟩) ∨
    ((Resumed e ∧ e.first = .deadChild) ∧ main e =
      ⟨resumeTrace e ++ [.recvDeadChild, .destroy], .returned⟩) ∨
    ((Resumed e ∧ e.first = .shutdown ∧ e.killOk = false) ∧ main e =
      ⟨resumeTrace e ++ [.recvShutdown, .signal e.childPid .SIGINT e.killOk,
        .logError "failed to kill the child"], .exit 1⟩) ∨
    ((Resumed e ∧ e.first = .shutdown ∧ e.killOk = true ∧ e.childDies = true) ∧ main e =
      ⟨resumeTrace e ++ [.recvShutdown, .signal e.childPid .SIGINT e.killOk,
        .recvDeadChild, .destroy], .returned⟩) ∨
    ((Resumed e ∧ e.first = .shutdown ∧ e.killOk = true ∧ e.childDies = false) ∧ main e =
      ⟨resumeTrace e ++ [.recvShutdown, .signal e.childPid .SIGINT e.killOk], .blocked⟩) ∨
    ((Resumed e ∧ e.first = .never) ∧ main e = ⟨resumeTrace e, .blocked⟩) := by
  by_cases h1 : e.args.length < 1
  · exact Or.inl ⟨h1, main_noArgs e h1⟩
  refine Or.inr ?_
  replace h1 : 1 ≤ e.args.length := by omega
  obtain h2 | h2 := Bool.eq_false_or_eq_true e.openOutOk
  swap
  · exact Or.inl ⟨⟨h1, h2⟩, main_openOutFailed e h1 h2⟩
  refine Or.inr ?_
  obtain h3 | h3 := Bool.eq_false_or_eq_true e.openErrOk
  swap
  · exact Or.inl ⟨⟨h1, h2, h3⟩, main_openErrFailed e h1 h2 h3⟩
  refine Or.inr ?_
  obtain h4 | h4 := Bool.eq_false_or_eq_true e.startOk
  swap
  · exact Or.inl ⟨⟨h1, h2, h3, h4⟩, main_startFailed e h1 h2 h3 h4⟩
  refine Or.inr ?_
  have hs : Spawned e := ⟨h1, h2, h3, h4⟩
  obtain h5 | h5 := Bool.eq_false_or_eq_true e.waitOk
  swap
  · exact Or.inl ⟨⟨hs, h5⟩, main_waitFailed e hs h5⟩
  refine Or.inr ?_
  by_cases h6 : e.waitPid = e.childPid
  swap
  · exact Or.inl ⟨⟨hs, h5, h6⟩, main_wrongPid e hs h5 h6⟩
  refine Or.inr ?_
  obtain h7 | h7 := Bool.eq_false_or_eq_true e.ws.Exited
  · exact Or.inl ⟨⟨hs, h5, h6, h7⟩, main_exitedEarly e hs h5 h6 h7⟩
  refine Or.inr ?_
  obtain h8 | h8 := Bool.eq_false_or_eq_true e.ws.Stopped
  swap
  · exact Or.inl ⟨⟨hs, h5, h6, h7, h8⟩, main_notStopped e hs h5 h6 h7 h8⟩
  refine Or.inr ?_
  have hp : Paused e := ⟨hs, h5, h6, h7, h8⟩
  obtain h9 | h9 := Bool.eq_false_or_eq_true e.newManagerOk
  swap
  · exact Or.inl ⟨⟨hp, h9⟩, main_newManagerFailed e hp h9⟩
  refine Or.inr ?_
  by_cases h10 : e.cgroupExists = true ∧ e.destroyOk = false
  · exact Or.inl ⟨⟨hp, h9, h10.1, h10.2⟩, main_staleDestroyFailed e hp h9 h10.1 h10.2⟩
  refine Or.inr ?_
  replace h10 : e.cgroupExists = true → e.destroyOk = true := by
    intro hx
    obtain hd | hd := Bool.eq_false_or_eq_true e.destroyOk
    · exact hd
    · exact absurd ⟨hx, hd⟩ h10
  obtain h11 | h11 := Bool.eq_false_or_eq_true e.applyOk
  swap
  · exact Or.inl ⟨⟨hp, h9, h10, h11⟩, main_applyFailed e hp h9 h10 h11⟩
  refine Or.inr ?_
  have he : Enrolled e := ⟨hp, h9, h10, h11⟩
  obtain h12 | h12 := Bool.eq_false_or_eq_true e.contOk
  swap
  · exact Or.inl ⟨⟨he, h12⟩, main_contFailed e he h12⟩
  refine Or.inr ?_
  have hr : Resumed e := ⟨he, h12⟩
  have hm := main_resumed e hr
  rcases hf : e.first with _ | _ | _
  · rw [hf] at hm
    exact Or.inl ⟨⟨hr, rfl⟩, hm⟩
  · refine Or.inr ?_
    rw [hf] at hm
    obtain hk | hk := Bool.eq_false_or_eq_true e.killOk
    swap
    · refine Or.inl ⟨⟨hr, rfl, hk⟩, ?_⟩
      rw [hm]; simp [hk]
    refine Or.inr ?_
    obtain hd | hd := Bool.eq_false_or_eq_true e.childDies
    · refine Or.inl ⟨⟨hr, rfl, hk, hd⟩, ?_⟩
      rw [hm]; simp [hk, hd]
    · refine Or.inr (Or.inl ⟨⟨hr, rfl, hk, hd⟩, ?_⟩)
      rw [hm]; simp [hk, hd]
  · rw [hf] at hm
    refine Or.inr (Or.inr (Or.inr (Or.inr ?_)))
    exact ⟨⟨hr, rfl⟩, hm⟩

/-! ## Claims about the launcher -/

theorem start_mem_iff (e : Env) :
    Event.start (childArgs e.debug e.args) true ∈ (main e).trace ↔ Spawned e := by
  rcases main_cases e with h | h | h | h | h | h | h | h | h | h | h | h | h | h | h | h | h <;>
    obtain ⟨hc, hm⟩ := h <;> rw [hm] <;>
    simp only [resumeTrace, applyTrace, managerTrace, waitTrace, spawnTrace] <;>
    (try split_ifs) <;> simp_all [Resumed, Enrolled, Paused, Spawned]

theorem cont_mem_iff (e : Env) :
    Event.signal e.childPid .SIGCONT true ∈ (main e).trace ↔ Resumed e := by
  rcases main_cases e with h | h | h | h | h | h | h | h | h | h | h | h | h | h | h | h | h <;>
    obtain ⟨hc, hm⟩ := h <;> rw [hm] <;>
    simp only [resumeTrace, applyTrace, managerTrace, waitTrace, spawnTrace] <;>
    (try split_ifs) <;> simp_all [Resumed, Enrolled, Paused, Spawned]

theorem not_signal_mem_applyTrace (e : Env) (p : Nat) (s : Signal) (o : Bool) :
    Event.signal p s o ∉ applyTrace e := by
  unfold applyTrace managerTrace waitTrace spawnTrace
  split_ifs <;> simp

/-- The events of a resumed run up to the continue signal hold no other signal. -/
theorem resumeTrace_eq (e : Env) :
    ∃ pre, (∀ p s o, Event.signal p s o ∉ pre) ∧
      resumeTrace e = pre ++ [Event.signal e.childPid .SIGCONT e.contOk] := by
  refine ⟨applyTrace e ++ [.notify, .goReaper, .goSampler e.unified], ?_, ?_⟩
  · intro p s o hmem
    rw [List.mem_append] at hmem
    rcases hmem with hmem | hmem
    · exact not_signal_mem_applyTrace e p s o hmem
    · simp at hmem
  · simp [resumeTrace]

/-- Claim C4.  once the child has been resumed (the continue signal was sent without error), the
`select` decides.  If `deadChild` fires first, the launcher sends nothing more, runs the
deferred destroy and returns (status 0).  If `shutdown` fires first, the launcher sends SIGINT
to the child; if that fails it exits with the nonzero code 1; otherwise it returns (status 0,
deferred destroy run) exactly when `deadChild` is then received, and stays blocked when the
child never dies.  Whenever it returns, the last two events are the receive from `deadChild`
and the destroy. -/
theorem arbitration_after_resume (e : Env)
    (h : Event.signal e.childPid .SIGCONT true ∈ (main e).trace) :
    ∃ pre, (∀ p s o, Event.signal p s o ∉ pre) ∧
      (e.first = .deadChild →
        main e = ⟨pre ++ [.signal e.childPid .SIGCONT true, .recvDeadChild, .destroy],
          .returned⟩ ∧ (main e).outcome.status = some 0) ∧
      (e.first = .shutdown → e.killOk = false →
        main e = ⟨pre ++ [.signal e.childPid .SIGCONT true, .recvShutdown,
          .signal e.childPid .SIGINT false, .logError "failed to kill the child"], .exit 1⟩ ∧
        (main e).outcome.status = some 1) ∧
      (e.first = .shutdown → e.killOk = true → e.childDies = true →
        main e = ⟨pre ++ [.signal e.childPid .SIGCONT true, .recvShutdown,
          .signal e.childPid .SIGINT true, .recvDeadChild, .destroy], .returned⟩ ∧
        (main e).outcome.status = some 0) ∧
      (e.first = .shutdown → e.killOk = true → e.childDies = false →
        main e = ⟨pre ++ [.signal e.childPid .SIGCONT true, .recvShutdown,
          .signal e.childPid .SIGINT true], .blocked⟩) ∧
      (e.first = .never → main e = ⟨pre ++ [.signal e.childPid .SIGCONT true], .blocked⟩) ∧
      ((main e).outcome = .returned →
        ∃ mid, (main e).trace = mid ++ [.recvDeadChild, .destroy]) := by
  have hr : Resumed e := (cont_mem_iff e).1 h
  have hm := main_resumed e hr
  obtain ⟨pre, hpre, hsplit⟩ := resumeTrace_eq e
  rw [hr.2] at hsplit
  refine ⟨pre, hpre, ?_, ?_, ?_, ?_, ?_, ?_⟩
  · intro hf
    rw [hf] at hm
    rw [hm, hsplit]
    simp [Outcome.status]
  · intro hf hk
    rw [hf, hk] at hm
    rw [hm, hsplit]
    simp [Outcome.status]
  · intro hf hk hd
    rw [hf, hk, hd] at hm
    rw [hm, hsplit]
    simp [Outcome.status]
  · intro hf hk hd
    rw [hf, hk, hd] at hm
    rw [hm, hsplit]
    simp
  · intro hf
    rw [hf] at hm
    rw [hm, hsplit]
  · rw [hm]
    rcases e.first with _ | _ | _
    · intro _
      exact ⟨resumeTrace e, by simp⟩
    · cases e.killOk <;> cases e.childDies <;> simp
      exact ⟨resumeTrace e ++ [.recvShutdown, .signal e.childPid .SIGINT true], by simp⟩
    · simp

/-- Witness for C4: the run `shutdownEnv` (operator interrupt, child dies of it). -/
theorem arbitration_after_resume_witness :
    Event.signal shutdownEnv.childPid .SIGCONT true ∈ (main shutdownEnv).trace ∧
    ∃ pre, (∀ p s o, Event.signal p s o ∉ pre) ∧
      main shutdownEnv = ⟨pre ++ [.signal shutdownEnv.childPid .SIGCONT true, .recvShutdown,
          .signal shutdownEnv.childPid .SIGINT true, .recvDeadChild, .destroy], .returned⟩ := by
  refine ⟨by decide, ?_⟩
  obtain ⟨pre, hpre, _, _, h3, _⟩ := arbitration_after_resume shutdownEnv (by decide)
  exact ⟨pre, hpre, (h3 rfl rfl rfl).1⟩

theorem not_cont_mem_applyTrace (e : Env) (p : Nat) (o : Bool) :
    Event.signal p .SIGCONT o ∉ applyTrace e := by
  unfold applyTrace managerTrace waitTrace spawnTrace
  split_ifs <;> simp

theorem wait4_mem_applyTrace (e : Env) :
    Event.wait4 e.childPid e.waitOk e.waitPid e.ws ∈ applyTrace e := by
  unfold applyTrace managerTrace waitTrace spawnTrace
  simp

theorem apply_mem_applyTrace (e : Env) :
    Event.apply e.childPid e.applyOk ∈ applyTrace e := by
  unfold applyTrace
  simp

theorem cont_split (e : Env) (rest : List Event) (pid : Nat) (ok : Bool)
    (he : Enrolled e) (hrest : ∀ p o, Event.signal p .SIGCONT o ∉ rest)
    (h : Event.signal pid .SIGCONT ok ∈ resumeTrace e ++ rest) :
    pid = e.childPid ∧ e.ws.Stopped = true ∧ e.ws.Exited = false ∧ e.applyOk = true ∧
      ∃ pre post, resumeTrace e ++ rest = pre ++ Event.signal pid .SIGCONT ok :: post ∧
        Event.wait4 e.childPid true e.childPid e.ws ∈ pre ∧
        Event.apply e.childPid true ∈ pre ∧
        (∀ p o, Event.signal p .SIGCONT o ∉ pre) ∧
        (∀ p o, Event.signal p .SIGCONT o ∉ post) := by
  obtain ⟨⟨hs, h5, h6, h7, h8⟩, h9, h10, h11⟩ := he
  have hpo : pid = e.childPid ∧ ok = e.contOk := by
    rw [List.mem_append] at h
    rcases h with h | h
    · unfold resumeTrace at h
      rw [List.mem_append] at h
      rcases h with h | h
      · exact absurd h (not_cont_mem_applyTrace e pid ok)
      · simpa using h
    · exact absurd h (hrest pid ok)
  obtain ⟨rfl, rfl⟩ := hpo
  refine ⟨rfl, h8, h7, h11, applyTrace e ++ [.notify, .goReaper, .goSampler e.unified], rest,
    ?_, ?_, ?_, ?_, hrest⟩
  · simp [resumeTrace]
  · have := wait4_mem_applyTrace e
    rw [h5, h6] at this
    exact List.mem_append_left _ this
  · have := apply_mem_applyTrace e
    rw [h11] at this
    exact List.mem_append_left _ this
  · intro p o hmem
    rw [List.mem_append] at hmem
    rcases hmem with hmem | hmem
    · exact not_cont_mem_applyTrace e p o hmem
    · simp at hmem


theorem main_trace_shape (e : Env) :
    (¬ Enrolled e ∧ ∀ p o, Event.signal p .SIGCONT o ∉ (main e).trace) ∨
    (Enrolled e ∧ ∃ rest, (main e).trace = resumeTrace e ++ rest ∧
      ∀ p o, Event.signal p .SIGCONT o ∉ rest) := by
  rcases main_cases e with h | h | h | h | h | h | h | h | h | h | h | h | h | h | h | h | h <;>
    obtain ⟨hc, hm⟩ := h <;> rw [hm]
  iterate 11
    refine Or.inl ⟨?_, ?_⟩
    · intro he
      obtain ⟨⟨⟨h1, h2, h3, h4⟩, h5, h6, h7, h8⟩, h9, h10, h11⟩ := he
      first
        | omega
        | simp_all [Paused, Spawned]
    · intro p o
      simp only [applyTrace, managerTrace, waitTrace, spawnTrace]
      (try split_ifs) <;> simp
  · exact Or.inr ⟨hc.1, _, rfl, by simp⟩
  · exact Or.inr ⟨hc.1.1, _, rfl, by simp⟩
  · exact Or.inr ⟨hc.1.1, _, rfl, by simp⟩
  · exact Or.inr ⟨hc.1.1, _, rfl, by simp⟩
  · exact Or.inr ⟨hc.1.1, _, rfl, by simp⟩
  · exact Or.inr ⟨hc.1.1, [], by simp, by simp⟩

/-- Claim C2.  Whenever `main` sends the continue signal, it sends it to the child, the child
had been seen stopped (and not exited) and `cm.Apply` of the child's pid had succeeded; the
successful `Wait4` and the successful `Apply` stand before the signal in the trace, and the
signal is sent once.  A run in which `manager.New` fails, in which the destroy of a cgroup
that already exists fails, or in which `cm.Apply` fails ends with `os.Exit(1)` and holds no
continue signal. -/
theorem cont_only_after_stop_and_apply (e : Env) :
    (∀ pid ok, Event.signal pid .SIGCONT ok ∈ (main e).trace →
      pid = e.childPid ∧ e.ws.Stopped = true ∧ e.ws.Exited = false ∧ e.applyOk = true ∧
      ∃ pre post, (main e).trace = pre ++ Event.signal pid .SIGCONT ok :: post ∧
        Event.wait4 e.childPid true e.childPid e.ws ∈ pre ∧
        Event.apply e.childPid true ∈ pre ∧
        (∀ p o, Event.signal p .SIGCONT o ∉ pre) ∧
        (∀ p o, Event.signal p .SIGCONT o ∉ post)) ∧
    ((Event.newManager cgroupName e.systemdCgroup e.systemdCgroup false ∈ (main e).trace ∨
        Event.logError "failed to destroy cgroup" ∈ (main e).trace ∨
        Event.apply e.childPid false ∈ (main e).trace) →
      (main e).outcome = .exit 1 ∧ ∀ pid ok, Event.signal pid .SIGCONT ok ∉ (main e).trace) := by
  constructor
  · intro pid ok h
    rcases main_trace_shape e with ⟨_, hno⟩ | ⟨he, rest, hrest, hno⟩
    · exact absurd h (hno pid ok)
    · rw [hrest] at h ⊢
      exact cont_split e rest pid ok he hno h
  · rcases main_cases e with h | h | h | h | h | h | h | h | h | h | h | h | h | h | h | h | h <;>
      obtain ⟨hc, hm⟩ := h <;> rw [hm] <;>
      simp only [resumeTrace, applyTrace, managerTrace, waitTrace, spawnTrace] <;>
      (try split_ifs) <;> simp_all [Resumed, Enrolled, Paused, Spawned]

/-- Witness for C2: in the run `okEnv` the continue signal is sent, after the stop was seen and
the apply succeeded. -/
theorem cont_only_after_stop_and_apply_witness :
    Event.signal 4242 .SIGCONT true ∈ (main okEnv).trace ∧
    okEnv.ws.Stopped = true ∧ okEnv.applyOk = true :=
  ⟨by decide,
    ((cont_only_after_stop_and_apply okEnv).1 4242 true (by decide)).2.1,
    ((cont_only_after_stop_and_apply okEnv).1 4242 true (by decide)).2.2.2.1⟩

/-- Claim C5, counterexample.  a run without a target command and a run whose output sink cannot be
opened report two different failure kinds and end with the same exit code, 1. -/
theorem exit_codes_collide :
    (main noTargetEnv).failure? = some .missingTarget ∧
    (main sinkFailEnv).failure? = some .sinkOpen ∧
    FailureKind.missingTarget ≠ FailureKind.sinkOpen ∧
    (main noTargetEnv).outcome = .exit 1 ∧
    (main sinkFailEnv).outcome = .exit 1 ∧
    ¬ ((main noTargetEnv).outcome.status ≠ (main sinkFailEnv).outcome.status) := by
  decide

/-- Claim C5 as amended.  a run that returns from `main` ends with status 0 and reports no failure;
a run that reports any failure ends with `os.Exit(1)`; every `os.Exit` of the launcher has
code 1 and follows a reported failure; and each of the nine failure kinds does occur, with
exit code 1. -/
theorem failures_exit_one :
    (∀ e : Env,
      ((main e).outcome = .returned →
        (main e).outcome.status = some 0 ∧ (main e).failure? = none) ∧
      (∀ k, (main e).failure? = some k → (main e).outcome = .exit 1) ∧
      (∀ code, (main e).outcome = .exit code →
        code = 1 ∧ ∃ k, (main e).failure? = some k)) ∧
    (∀ k : FailureKind,
      (main (failingEnv k)).failure? = some k ∧ (main (failingEnv k)).outcome = .exit 1) := by
  constructor
  · intro e
    rcases main_cases e with h | h | h | h | h | h | h | h | h | h | h | h | h | h | h | h | h <;>
      obtain ⟨hc, hm⟩ := h <;> rw [hm] <;>
      simp only [resumeTrace, applyTrace, managerTrace, waitTrace, spawnTrace] <;>
      (try split_ifs) <;>
      simp [Run.failure?, Event.failure?, failureKind?, Outcome.status]
  · intro k
    cases k <;> decide

/-- Witness for C5: the run `contFailEnv` reports a resume failure and exits with code 1. -/
theorem failures_exit_one_witness :
    (main contFailEnv).failure? = some .resume ∧ (main contFailEnv).outcome = .exit 1 :=
  ⟨by decide, (failures_exit_one.1 contFailEnv).2.1 .resume (by decide)⟩

/-- Claim C6.  after the child was spawned, and given that `Wait4` reports on the process it was asked
about, `main` goes on to `manager.New` if and only if the wait succeeded with a status that is
stopped and not exited.  A status that reports exit ends the run with `os.Exit(1)` after
"child exited early", a status that is neither stopped nor exited ends it with `os.Exit(1)`
after "child didn't stopped itself"; in both runs no call touches the accounting group. -/
theorem create_iff_child_stopped (e : Env)
    (hspawn : Event.start (childArgs e.debug e.args) true ∈ (main e).trace)
    (hpid : e.waitOk = true → e.waitPid = e.childPid) :
    ((∃ ok, Event.newManager cgroupName e.systemdCgroup e.systemdCgroup ok ∈ (main e).trace) ↔
      (e.waitOk = true ∧ e.ws.Stopped = true ∧ e.ws.Exited = false)) ∧
    (e.waitOk = true → e.ws.Exited = true →
      (main e).outcome = .exit 1 ∧ Event.logError "child exited early" ∈ (main e).trace ∧
      ∀ ev ∈ (main e).trace, ev.isCgroup = false) ∧
    (e.waitOk = true → e.ws.Exited = false → e.ws.Stopped = false →
      (main e).outcome = .exit 1 ∧
      Event.logError "child didn't stopped itself" ∈ (main e).trace ∧
      ∀ ev ∈ (main e).trace, ev.isCgroup = false) ∧
    (¬ (e.waitOk = true ∧ e.ws.Stopped = true ∧ e.ws.Exited = false) →
      (main e).outcome = .exit 1 ∧ ∀ ev ∈ (main e).trace, ev.isCgroup = false) := by
  have hs : Spawned e := (start_mem_iff e).1 hspawn
  rcases main_cases e with h | h | h | h | h | h | h | h | h | h | h | h | h | h | h | h | h <;>
    obtain ⟨hc, hm⟩ := h <;> rw [hm] <;>
    simp only [resumeTrace, applyTrace, managerTrace, waitTrace, spawnTrace] <;>
    (try split_ifs) <;>
    simp_all [Resumed, Enrolled, Paused, Spawned, Event.isCgroup]

/-- Witness for C6: in the run `exitedEarlyEnv` the child-runner exited before stopping. -/
theorem create_iff_child_stopped_witness :
    Event.start (childArgs exitedEarlyEnv.debug exitedEarlyEnv.args) true ∈
      (main exitedEarlyEnv).trace ∧
    (exitedEarlyEnv.waitOk = true → exitedEarlyEnv.waitPid = exitedEarlyEnv.childPid) ∧
    (main exitedEarlyEnv).outcome = .exit 1 ∧
    Event.logError "child exited early" ∈ (main exitedEarlyEnv).trace ∧
    ∀ ev ∈ (main exitedEarlyEnv).trace, ev.isCgroup = false :=
  ⟨by decide, by decide,
    (create_iff_child_stopped exitedEarlyEnv (by decide) (by decide)).2.1 (by decide)
      (by decide)⟩

/-- Claim C1 fails on the code.  in each of three runs the manager was created, and the launcher
ends with `os.Exit(1)` without a single call of `cm.Destroy()`: when `cm.Apply` fails
(`applyFailEnv`), when the continue signal cannot be sent (`contFailEnv`) and when the
interrupt signal cannot be sent (`killFailEnv`).  In the last two the destroy had been
deferred; `os.Exit` does not run deferred calls. -/
theorem destroy_skipped_on_fatal_exit :
    main contFailEnv =
      ⟨[.openFile "/dev/stderr" true, .openFile "/dev/stderr" true,
        .start ["__init", "sleep", "10"] true, .wait4 4242 true 4242 ⟨false, true, -1⟩,
        .newManager "cmemstat" true true true, .cgroupExists false, .apply 4242 true,
        .notify, .goReaper, .goSampler true, .signal 4242 .SIGCONT false,
        .logError "failed to resume the child"], .exit 1⟩ ∧
    (main contFailEnv).trace.count .destroy = 0 ∧
    main killFailEnv =
      ⟨[.openFile "/dev/stderr" true, .openFile "/dev/stderr" true,
        .start ["__init", "sleep", "10"] true, .wait4 4242 true 4242 ⟨false, true, -1⟩,
        .newManager "cmemstat" true true true, .cgroupExists false, .apply 4242 true,
        .notify, .goReaper, .goSampler true, .signal 4242 .SIGCONT true,
        .recvShutdown, .signal 4242 .SIGINT false,
        .logError "failed to kill the child"], .exit 1⟩ ∧
    (main killFailEnv).trace.count .destroy = 0 ∧
    main applyFailEnv =
      ⟨[.openFile "/dev/stderr" true, .openFile "/dev/stderr" true,
        .start ["__init", "sleep", "10"] true, .wait4 4242 true 4242 ⟨false, true, -1⟩,
        .newManager "cmemstat" true true true, .cgroupExists false, .apply 4242 false,
        .logError "failed to apply cgroup"], .exit 1⟩ ∧
    (main applyFailEnv).trace.count .destroy = 0 ∧
    (main okEnv).trace.count .destroy = 1 ∧ (main shutdownEnv).trace.count .destroy = 1 := by
  decide

/-! ## Claims about the child-runner -/

theorem isChildRunner_iff (args : List String) :
    isChildRunner args = true ↔
      ∃ a0 a1 rest, args = a0 :: a1 :: rest ∧ HasPrefix a0 magicCmd = true := by
  constructor
  · intro h
    match args, h with
    | [], h => simp [isChildRunner] at h
    | [_], h => simp [isChildRunner] at h
    | a0 :: a1 :: rest, h =>
      refine ⟨a0, a1, rest, rfl, ?_⟩
      simpa [isChildRunner] using h
  · rintro ⟨a0, a1, rest, rfl, h⟩
    simp [isChildRunner, h]

theorem init_of_childRunner (env : ChildEnv) (prog a0 a1 : String) (rest : List String)
    (h : HasPrefix a0 magicCmd = true) :
    init env (prog :: a0 :: a1 :: rest) = childRunner env a0 a1 rest := by
  have hc : isChildRunner (a0 :: a1 :: rest) = true :=
    (isChildRunner_iff _).2 ⟨a0, a1, rest, rfl, h⟩
  simp [init, hc]

/-- Claim C8.  in the child-runner branch `init` never returns to `main` (and does not panic): the
process is replaced by the resolved target, exits, or stays stopped because no continue
signal ever arrives; the last happens exactly when the path resolved and the stop was never
followed by a continue.  In every other run the process ends by `exec` of the resolved path
with `args[1:]`, or by `os.Exit`.  A path-resolution failure exits with 1, a stop-signal
failure with 2, an exec failure with 3. -/
theorem child_runner_never_falls_through (env : ChildEnv) (prog : String) (args : List String)
    (h : isChildRunner args = true) :
    (init env (prog :: args)).outcome ≠ .fallThrough ∧
    (init env (prog :: args)).outcome ≠ .panicked ∧
    ((init env (prog :: args)).outcome = .suspended ↔
      (env.LookPath (args.getD 1 "")).isSome = true ∧ env.stop = .neverResumed) ∧
    ((init env (prog :: args)).outcome ≠ .suspended →
      (∃ code, (init env (prog :: args)).outcome = .exit code) ∨
      ∃ path, env.LookPath (args.getD 1 "") = some path ∧
        (init env (prog :: args)).outcome = .execed path (args.drop 1) env.Environ) ∧
    (env.LookPath (args.getD 1 "") = none → (init env (prog :: args)).outcome = .exit 1) ∧
    ((env.LookPath (args.getD 1 "")).isSome = true → env.stop = .failed →
      (init env (prog :: args)).outcome = .exit 2) ∧
    ((env.LookPath (args.getD 1 "")).isSome = true → env.stop = .resumed →
      env.exec = .failed → (init env (prog :: args)).outcome = .exit 3) ∧
    (∀ code, (init env (prog :: args)).outcome = .exit code → code ≠ 0 →
      (code = 1 ∧ env.LookPath (args.getD 1 "") = none) ∨
      (code = 2 ∧ env.stop = .failed) ∨ (code = 3 ∧ env.exec = .failed)) := by
  obtain ⟨a0, a1, rest, rfl, hp⟩ := (isChildRunner_iff args).1 h
  rw [init_of_childRunner env prog a0 a1 rest hp]
  unfold childRunner
  cases hl : env.LookPath a1 <;> cases hs : env.stop <;> cases hx : env.exec <;>
    simp [hl]

/-- Witness for C8: the child-runner started as `__init sleep 10` with every call
succeeding is replaced by `/usr/bin/sleep`. -/
theorem child_runner_never_falls_through_witness :
    isChildRunner ["__init", "sleep", "10"] = true ∧
    (init okChildEnv ["/proc/self/exe", "__init", "sleep", "10"]).outcome ≠ .fallThrough :=
  ⟨by decide,
    (child_runner_never_falls_through okChildEnv "/proc/self/exe" ["__init", "sleep", "10"]
      (by decide)).1⟩

theorem hasPrefix_magic (debug : Bool) :
    HasPrefix (magicCmdWithOptions debug) magicCmd = true := by
  cases debug <;> decide

theorem hasSuffix_magic (debug : Bool) : HasSuffix (magicCmdWithOptions debug) "d" = debug := by
  cases debug <;> decide

/-- Claim C9.  for every debug flag and every non-empty list of positional arguments, the argument
list that `main` passes to the re-exec is `childArgs debug args`; it has at least two
elements and its first starts with the sentinel, so `init` takes the child-runner branch;
the child-runner turns debug logging on exactly when the parent's flag is set; the name it
resolves is the first positional argument and the argument vector it execs is the list of
positional arguments. -/
theorem reexec_selects_child_runner (debug : Bool) (args : List String) (hargs : args ≠ [])
    (env : ChildEnv) (prog : String) :
    (∀ e : Env, ∀ argv ok, Event.start argv ok ∈ (main e).trace →
      argv = childArgs e.debug e.args) ∧
    2 ≤ (childArgs debug args).length ∧
    HasPrefix ((childArgs debug args).headD "") magicCmd = true ∧
    isChildRunner (childArgs debug args) = true ∧
    (init env (prog :: childArgs debug args)).debugLogging = debug ∧
    (init env (prog :: childArgs debug args)).outcome =
      (match env.LookPath (args.head hargs) with
       | none => .exit 1
       | some path =>
         match env.stop with
         | .failed => .exit 2
         | .neverResumed => .suspended
         | .resumed =>
           match env.exec with
           | .failed => .exit 3
           | .replaced => .execed path args env.Environ
           | .returnedNil => .exit 0) := by
  refine ⟨?_, ?_⟩
  · intro e argv ok
    rcases main_cases e with h | h | h | h | h | h | h | h | h | h | h | h | h | h | h | h | h <;>
      obtain ⟨hc, hm⟩ := h <;> rw [hm] <;>
      simp only [resumeTrace, applyTrace, managerTrace, waitTrace, spawnTrace] <;>
      (try split_ifs) <;> simp <;> intro h _ <;> exact h
  · match args, hargs with
    | a :: rest, _ =>
      have hp := hasPrefix_magic debug
      refine ⟨by simp [childArgs], by simpa [childArgs] using hp, ?_, ?_, ?_⟩
      · exact (isChildRunner_iff _).2 ⟨_, a, rest, rfl, hp⟩
      · rw [childArgs, init_of_childRunner env prog _ a rest hp]
        unfold childRunner
        cases env.LookPath a <;> cases env.stop <;> cases env.exec <;>
          simp [hasSuffix_magic]
      · rw [childArgs, init_of_childRunner env prog _ a rest hp]
        unfold childRunner
        simp only [List.head_cons]
        cases env.LookPath a <;> cases env.stop <;> cases env.exec <;> simp

/-- Witness for C9: `cmemstat -debug sleep 10`. -/
theorem reexec_selects_child_runner_witness :
    ["sleep", "10"] ≠ [] ∧
    (init okChildEnv ("/proc/self/exe" :: childArgs true ["sleep", "10"])) =
      ⟨true, .execed "/usr/bin/sleep" ["sleep", "10"] ["PATH=/usr/bin"]⟩ := by
  refine ⟨by decide, ?_⟩
  have h := reexec_selects_child_runner true ["sleep", "10"] (by decide) okChildEnv
    "/proc/self/exe"
  have h1 := h.2.2.2.2.1
  have h2 := h.2.2.2.2.2
  cases hi : init okChildEnv ("/proc/self/exe" :: childArgs true ["sleep", "10"]) with
  | mk d o =>
    rw [hi] at h1 h2
    simp only at h1 h2
    rw [h1, h2]
    rfl

/-! ## Rounding to the millisecond -/

theorem tmod_of_nonneg (d m : Int) (hd : 0 ≤ d) (hm : 0 < m) : Int.tmod d m = d % m :=
  Int.tmod_eq_emod hd (Int.le_of_lt hm)

theorem tmod_of_neg (d m : Int) (hd : d < 0) (hm : 0 < m) : Int.tmod d m = -((-d) % m) := by
  have h1 : Int.tmod (-d) m = (-d) % m := Int.tmod_eq_emod (by omega) (Int.le_of_lt hm)
  have h2 : Int.tmod (-d) m = -d - m * (-d).tdiv m := Int.tmod_def _ _
  have h3 : Int.tmod d m = d - m * d.tdiv m := Int.tmod_def _ _
  have h4 : (-d).tdiv m = -(d.tdiv m) := Int.neg_tdiv d m
  rw [h3, ← h1, h2, h4]
  ring

/-- Closed form of `Round d Millisecond` on the `int64` range. -/
theorem Round_ms (d : Int) (hd : InRange d) :
    Round d Millisecond =
      if 0 ≤ d then
        (if d % 1000000 < 500000 then d - d % 1000000
         else if d + 1000000 - d % 1000000 ≤ 9223372036854775807 then d + 1000000 - d % 1000000
         else 9223372036854775807)
      else
        (if (-d) % 1000000 < 500000 then d + (-d) % 1000000
         else if -9223372036854775808 ≤ d - 1000000 + (-d) % 1000000 then
           d - 1000000 + (-d) % 1000000
         else -9223372036854775808) := by
  obtain ⟨hlo, hhi⟩ := hd
  simp only [minDuration, maxDuration] at hlo hhi
  norm_num at hlo hhi
  unfold Round Millisecond
  by_cases h0 : 0 ≤ d
  · have ht := tmod_of_nonneg d 1000000 h0 (by norm_num)
    have h0' : ¬ d < 0 := by omega
    simp only [ht, lessThanHalf, toUint64, wrapInt64, maxDuration, minDuration, h0, h0',
      if_true, if_false, decide_eq_true_eq]
    norm_num
    split_ifs <;> omega
  · have ht := tmod_of_neg d 1000000 (by omega) (by norm_num)
    have h0' : d < 0 := by omega
    simp only [ht, lessThanHalf, toUint64, wrapInt64, maxDuration, minDuration, h0, h0',
      if_true, if_false, decide_eq_true_eq, neg_neg]
    have e1 : (2:Int)^63 = 9223372036854775808 := by norm_num
    have e2 : (2:Int)^64 = 18446744073709551616 := by norm_num
    have e3 : ¬ ((1000000:Int) ≤ 0) := by norm_num
    simp only [e1, e2, e3, if_false]
    split_ifs <;> omega

theorem Round_ms_mono (d d' : Int) (hd : InRange d) (hd' : InRange d') (h : d ≤ d') :
    Round d Millisecond ≤ Round d' Millisecond := by
  rw [Round_ms d hd, Round_ms d' hd']
  obtain ⟨hlo, hhi⟩ := hd
  obtain ⟨hlo', hhi'⟩ := hd'
  simp only [minDuration, maxDuration] at hlo hhi hlo' hhi'
  norm_num at hlo hhi hlo' hhi'
  split_ifs <;> omega

/-! ## The sampler loops -/

theorem loopUnified_eq (polls : List Poll) (st : Sampler) :
    loopUnified polls st =
      ⟨if rowsOf true polls = [] then st.w
        else ⟨[], st.w.out ++ st.w.buf ++ rowsOf true polls⟩,
       st.errors + failures polls⟩ := by
  induction polls generalizing st with
  | nil => simp [loopUnified, rowsOf, failures]
  | cons p polls ih =>
    cases p with
    | failed =>
      rw [loopUnified, ih]
      simp [rowsOf, rowOf, failures, Nat.add_comm, Nat.add_left_comm]
    | ok stats since =>
      rw [loopUnified, ih]
      by_cases h : rowsOf true polls = []
      · simp [rowsOf, rowOf, failures, Writer.Fprint, Writer.Flush] at h ⊢
      · simp [rowsOf, rowOf, failures, Writer.Fprint, Writer.Flush] at h ⊢

theorem loopLegacy_eq (polls : List Poll) (st : Sampler) :
    loopLegacy polls st =
      ⟨if rowsOf false polls = [] then st.w
        else ⟨[], st.w.out ++ st.w.buf ++ rowsOf false polls⟩,
       st.errors + failures polls⟩ := by
  induction polls generalizing st with
  | nil => simp [loopLegacy, rowsOf, failures]
  | cons p polls ih =>
    cases p with
    | failed =>
      rw [loopLegacy, ih]
      simp [rowsOf, rowOf, failures, Nat.add_comm, Nat.add_left_comm]
    | ok stats since =>
      rw [loopLegacy, ih]
      by_cases h : rowsOf false polls = []
      · simp [rowsOf, rowOf, failures, Writer.Fprint, Writer.Flush] at h ⊢
      · simp [rowsOf, rowOf, failures, Writer.Fprint, Writer.Flush] at h ⊢

theorem sampler_eq (unified : Bool) (polls : List Poll) :
    sampler unified polls =
      ⟨if rowsOf unified polls = [] then ⟨[headerLine unified], []⟩
        else ⟨[], headerLine unified :: rowsOf unified polls⟩,
       failures polls⟩ := by
  cases unified
  · simp [sampler, loopLegacy_eq, headerLine, Writer.new, Writer.Fprint]
  · simp [sampler, loopUnified_eq, headerLine, Writer.new, Writer.Fprint]

theorem uptimes_rowsOf (unified : Bool) (polls : List Poll) :
    (rowsOf unified polls).filterMap Line.uptime? =
      (sinces polls).map (fun d => Round d Millisecond) := by
  induction polls with
  | nil => simp [rowsOf, sinces]
  | cons p polls ih =>
    cases p with
    | failed => simpa [rowsOf, rowOf, sinces] using ih
    | ok stats since =>
      cases unified <;>
        simpa [rowsOf, rowOf, sinces, rowUnified, rowLegacy, Line.uptime?] using ih

/-! ## Claims about the sampler -/

theorem sub64_int (a b : Nat) : ((sub64 a b : Nat) : Int) = ((a : Int) - (b : Int)) % 2 ^ 64 := by
  unfold sub64
  exact Int.toNat_of_nonneg (Int.emod_nonneg _ (by norm_num))

theorem sub64_of_le (a b : Nat) (ha : a < uint64Size) (h : b ≤ a) : sub64 a b = a - b := by
  have h1 := sub64_int a b
  unfold uint64Size at ha
  norm_num at h1 ha
  omega

theorem sub64_of_lt (a b : Nat) (hb : b < uint64Size) (h : a < b) :
    sub64 a b = a + uint64Size - b := by
  have h1 := sub64_int a b
  unfold uint64Size at hb ⊢
  norm_num at h1 hb ⊢
  omega

/-- Claim C3, counterexample.  for the sample `underflowStats` (usage 4096, inactive_file 8192) the
unified sampler prints 18446744073709547520 in the workingset column; usage minus the
inactive-file counter is -4096. -/
theorem workingset_underflow :
    underflowStats.MemoryStats.Usage.Usage = 4096 ∧
    underflowStats.MemoryStats.Stats "inactive_file" = 8192 ∧
    (rowUnified underflowStats 0).workingset? = some 18446744073709547520 ∧
    (sampler true [.ok underflowStats 0]).w.out =
      [.text headerUnified, .row 0 0 0 0 4096 18446744073709547520] ∧
    ((18446744073709547520 : Nat) : Int) ≠
      (underflowStats.MemoryStats.Usage.Usage : Int) -
        (underflowStats.MemoryStats.Stats "inactive_file" : Int) := by
  decide

/-- Claim C3 as amended.  in both variants the workingset column is usage minus the inactive-file
counter of the variant (`inactive_file`, `total_inactive_file`) in `uint64` arithmetic, that
is modulo `2 ^ 64`: the exact difference when the counter is at most usage, and the
difference plus `2 ^ 64` when the counter is larger than usage. -/
theorem workingset_mod_uint64 (stats : Stats) (since : Int) (hwf : stats.WellFormed) :
    (∃ ws, (rowUnified stats since).workingset? = some ws ∧
      (ws : Int) = ((stats.MemoryStats.Usage.Usage : Int) -
        (stats.MemoryStats.Stats "inactive_file" : Int)) % 2 ^ 64 ∧
      (stats.MemoryStats.Stats "inactive_file" ≤ stats.MemoryStats.Usage.Usage →
        ws = stats.MemoryStats.Usage.Usage - stats.MemoryStats.Stats "inactive_file") ∧
      (stats.MemoryStats.Usage.Usage < stats.MemoryStats.Stats "inactive_file" →
        ws = stats.MemoryStats.Usage.Usage + 2 ^ 64 -
          stats.MemoryStats.Stats "inactive_file")) ∧
    (∃ ws, (rowLegacy stats since).workingset? = some ws ∧
      (ws : Int) = ((stats.MemoryStats.Usage.Usage : Int) -
        (stats.MemoryStats.Stats "total_inactive_file" : Int)) % 2 ^ 64 ∧
      (stats.MemoryStats.Stats "total_inactive_file" ≤ stats.MemoryStats.Usage.Usage →
        ws = stats.MemoryStats.Usage.Usage - stats.MemoryStats.Stats "total_inactive_file") ∧
      (stats.MemoryStats.Usage.Usage < stats.MemoryStats.Stats "total_inactive_file" →
        ws = stats.MemoryStats.Usage.Usage + 2 ^ 64 -
          stats.MemoryStats.Stats "total_inactive_file")) := by
  obtain ⟨hu, _, hs⟩ := hwf
  refine ⟨⟨_, rfl, sub64_int _ _, fun h => sub64_of_le _ _ hu h, fun h => ?_⟩,
    ⟨_, rfl, sub64_int _ _, fun h => sub64_of_le _ _ hu h, fun h => ?_⟩⟩
  · exact sub64_of_lt _ _ (hs _) h
  · exact sub64_of_lt _ _ (hs _) h

theorem exampleStats_wf : exampleStats.WellFormed := by
  refine ⟨by decide, by decide, fun k => ?_⟩
  show (if k = "inactive_file" ∨ k = "total_inactive_file" then 200 else 0) < uint64Size
  split_ifs <;> decide

/-- Witness for C3: usage 1000 and inactive file 200 give working set 800, in both variants. -/
theorem workingset_mod_uint64_witness :
    exampleStats.WellFormed ∧
    (rowUnified exampleStats 0).workingset? = some 800 ∧
    (rowLegacy exampleStats 0).workingset? = some 800 := by
  obtain ⟨⟨w1, h1, _, h1', _⟩, ⟨w2, h2, _, h2', _⟩⟩ :=
    workingset_mod_uint64 exampleStats 0 exampleStats_wf
  refine ⟨exampleStats_wf, ?_, ?_⟩
  · rw [h1, h1' (by decide)]
    rfl
  · rw [h2, h2' (by decide)]
    rfl

/-- Claim C7, counterexample.  After one failed poll, in either variant, nothing has reached
standard output: the header written at line 178 (193) is still held by the tabwriter, which
is flushed only after a row (line 186, 201).  The output is not the header followed by the
rows of the successful polls. -/
theorem header_held_back_without_rows :
    (sampler true [.failed]).w.out = [] ∧
    (sampler true [.failed]).w.buf = [.text headerUnified] ∧
    (sampler true [.failed]).w.out ≠ headerLine true :: rowsOf true [.failed] ∧
    (sampler false [.failed]).w.out = [] ∧
    (sampler false [.failed]).w.buf = [.text headerLegacy] ∧
    (sampler false [.failed]).w.out ≠ headerLine false :: rowsOf false [.failed] := by
  decide

/-- Claim C7 as amended.  For every finite sequence of poll results and either variant: while
no poll has succeeded, standard output is empty and the header of the variant waits, once, in
the tabwriter; once a poll has succeeded, standard output is the header of the variant,
exactly once and first, followed by one row per successful poll in poll order, and nothing
is left unflushed.  What has been written to the tabwriter, flushed or not, is always the
header once followed by those rows.  A failed poll writes nothing, is logged, and the loop
goes on with the polls that follow it.  The headers name the columns uptime, anon, file,
kernel, usage, workingset (unified) and uptime, rss, cache, kernel, usage, workingset
(legacy). -/
theorem sampler_output (unified : Bool) (polls : List Poll) :
    (sampler unified polls).w.out =
      (if rowsOf unified polls = [] then [] else headerLine unified :: rowsOf unified polls) ∧
    (sampler unified polls).w.buf =
      (if rowsOf unified polls = [] then [headerLine unified] else []) ∧
    ((sampler unified polls).w.out.filter (fun l => decide (l = headerLine unified))).length
      = (if rowsOf unified polls = [] then 0 else 1) ∧
    (sampler unified polls).w.written = headerLine unified :: rowsOf unified polls ∧
    ((sampler unified polls).w.written.filter (fun l => decide (l = headerLine unified))).length
      = 1 ∧
    (rowsOf unified polls).length + failures polls = polls.length ∧
    (sampler unified polls).errors = failures polls ∧
    (∀ more, (sampler unified (polls ++ .failed :: more)).w.written =
      (sampler unified polls).w.written ++ rowsOf unified more) ∧
    headerLine true = .text (String.join
      (["uptime", "anon", "file", "kernel", "usage", "workingset"].map (fun c => c ++ "\t"))) ∧
    headerLine false = .text (String.join
      (["uptime", "rss", "cache", "kernel", "usage", "workingset"].map (fun c => c ++ "\t")))
    := by
  have hw : ∀ ps, (sampler unified ps).w.written = headerLine unified :: rowsOf unified ps := by
    intro ps
    rw [sampler_eq]
    by_cases h : rowsOf unified ps = [] <;> simp [h, Writer.written]
  have hlen : ∀ ps : List Poll, (rowsOf unified ps).length + failures ps = ps.length := by
    intro ps
    induction ps with
    | nil => simp [rowsOf, failures]
    | cons p ps ih =>
      cases p with
      | failed =>
        simp only [rowsOf, List.filterMap_cons, rowOf, failures, List.length_cons] at ih ⊢
        omega
      | ok stats since =>
        simp only [rowsOf, List.filterMap_cons, rowOf, failures, List.length_cons] at ih ⊢
        omega
  have hrow : ∀ ps : List Poll, ∀ l ∈ rowsOf unified ps, l ≠ headerLine unified := by
    intro ps l hl
    simp only [rowsOf, List.mem_filterMap] at hl
    obtain ⟨p, _, hp⟩ := hl
    cases p with
    | failed => simp [rowOf] at hp
    | ok stats since =>
      simp only [rowOf, Option.some.injEq] at hp
      subst hp
      cases unified <;> simp [rowUnified, rowLegacy, headerLine]
  have hcount : ((headerLine unified :: rowsOf unified polls).filter
      (fun l => decide (l = headerLine unified))).length = 1 := by
    rw [List.filter_cons_of_pos (by simp)]
    have : (rowsOf unified polls).filter (fun l => decide (l = headerLine unified)) = [] := by
      rw [List.filter_eq_nil_iff]
      intro l hl
      simpa using hrow polls l hl
    rw [this]
    rfl
  have hout : (sampler unified polls).w.out =
      (if rowsOf unified polls = [] then [] else headerLine unified :: rowsOf unified polls) := by
    rw [sampler_eq]
    by_cases h : rowsOf unified polls = [] <;> simp [h]
  refine ⟨hout, ?_, ?_, hw polls, ?_, hlen polls, ?_, ?_, by decide, by decide⟩
  · rw [sampler_eq]
    by_cases h : rowsOf unified polls = [] <;> simp [h]
  · rw [hout]
    by_cases h : rowsOf unified polls = []
    · simp [h]
    · rw [if_neg h, if_neg h]
      exact hcount
  · rw [hw polls]
    exact hcount
  · rw [sampler_eq]
  · intro more
    rw [hw, hw]
    simp [rowsOf, rowOf]

/-- Witness for C7: a failed poll followed by a successful one; standard output is the header
and the one row. -/
theorem sampler_output_witness :
    (sampler true [.failed, .ok exampleStats 400000]).w.out =
      [.text headerUnified, .row 0 0 0 0 1000 800] ∧
    (sampler true [.failed, .ok exampleStats 400000]).w.buf = [] := by
  have h := sampler_output true [.failed, .ok exampleStats 400000]
  refine ⟨?_, ?_⟩
  · rw [h.1]
    decide
  · rw [h.2.1]
    decide

/-- Claim C10.  if the values of `time.Since(start)` read by the successful polls are durations
(`int64`) and never decrease from one poll to the next (the clock is monotonic), then in the
table written by the sampler the uptime of each row is at most the uptime of the row after
it. -/
theorem uptime_nondecreasing (unified : Bool) (polls : List Poll)
    (hrange : ∀ d ∈ sinces polls, InRange d)
    (hclock : (sinces polls).Chain' (fun a b => a ≤ b)) :
    ((sampler unified polls).w.written.filterMap Line.uptime?).Chain' (fun a b => a ≤ b) ∧
    (sampler unified polls).w.written.filterMap Line.uptime? =
      (sinces polls).map (fun d => Round d Millisecond) := by
  have hw : (sampler unified polls).w.written.filterMap Line.uptime? =
      (sinces polls).map (fun d => Round d Millisecond) := by
    rw [sampler_eq]
    by_cases h : rowsOf unified polls = []
    · have := uptimes_rowsOf unified polls
      simp [h, Writer.written, headerLine, Line.uptime?] at this ⊢
      exact this
    · simpa [h, Writer.written, headerLine, Line.uptime?] using uptimes_rowsOf unified polls
  refine ⟨?_, hw⟩
  rw [hw, List.chain'_map]
  have hp : (sinces polls).Pairwise (fun a b => a ≤ b) := List.chain'_iff_pairwise.1 hclock
  apply List.Pairwise.chain'
  exact hp.imp_of_mem (fun ha hb hab => Round_ms_mono _ _ (hrange _ ha) (hrange _ hb) hab)

/-- Witness for C10: three polls, the second failed, read at 0.4 ms and 1.6 ms. -/
theorem uptime_nondecreasing_witness :
    (∀ d ∈ sinces [.ok exampleStats 400000, .failed, .ok exampleStats 1600000], InRange d) ∧
    (sinces [.ok exampleStats 400000, .failed, .ok exampleStats 1600000]).Chain'
      (fun a b => a ≤ b) ∧
    ((sampler true [.ok exampleStats 400000, .failed,
      .ok exampleStats 1600000]).w.written.filterMap Line.uptime?) = [0, 2000000] := by
  have hrange : ∀ d ∈ sinces [.ok exampleStats 400000, .failed, .ok exampleStats 1600000],
      InRange d := by
    intro d hd
    simp only [sinces, List.mem_cons, List.mem_singleton, List.not_mem_nil, or_false] at hd
    rcases hd with rfl | rfl <;> (unfold InRange minDuration maxDuration; norm_num)
  have hclock : (sinces [.ok exampleStats 400000, .failed, .ok exampleStats 1600000]).Chain'
      (fun a b => a ≤ b) := by
    simp [sinces]
  refine ⟨hrange, hclock, ?_⟩
  rw [(uptime_nondecreasing true [.ok exampleStats 400000, .failed, .ok exampleStats 1600000]
    hrange hclock).2]
  decide

end Cmemstat
